import Mathlib

/-!
Verification development for the CDP network crawler
(`devices.py`, `connect.py`, `data.py`, `crawler.py`, `main.py`).

Python strings are modelled as lists of Unicode code points (`PyStr`);
the string operations the crawler uses (`str.lower`, `str.strip`,
`str.split`, substring tests, and the one `re.sub` call) are embedded
for the ASCII range, which is the range all crawler string constants and
device hostnames live in.
-/

/-- Python string, as a list of Unicode code points. -/
abbrev PyStr := List Nat

/-- Conversion from a Lean string literal to its code-point list, used to
write concrete Python strings readably. -/
def pystr (s : String) : PyStr := s.toList.map Char.toNat

/-- Python `str.lower` on one code point (ASCII range, as used by the
crawler's hostnames and platform strings). -/
def lowerN (n : Nat) : Nat := if 65 ≤ n ∧ n ≤ 90 then n + 32 else n

/-- Python `str.lower` on a string. -/
def mapLower (s : PyStr) : PyStr := s.map lowerN

/-- Python whitespace test (`str.strip` default set and the regex class
backslash-s): space, tab, newline, vertical tab, form feed, carriage return. -/
def isWsN (n : Nat) : Bool := decide (n = 32 ∨ n = 9 ∨ n = 10 ∨ n = 11 ∨ n = 12 ∨ n = 13)

/-- Python `str.strip()`: drop whitespace from both ends. -/
def pyStrip (s : PyStr) : PyStr :=
  (((s.dropWhile isWsN).reverse.dropWhile isWsN)).reverse

/-- Python `needle in hay` substring test. -/
def containsSub (hay needle : PyStr) : Bool :=
  hay.tails.any (fun t => needle.isPrefixOf t)

/-- Python `hostname.split(chr(46))[0]`: the part before the first dot
(code point 46). -/
def firstLabel (s : PyStr) : PyStr := s.takeWhile (fun c => !(c == 46))

/-- Code points of the literal `(Serial:` that anchors the serial-annotation
regex in `NetworkDevice._normalize_hostname`. -/
def serialLit : PyStr := pystr "(Serial:"

/-- Index just past the last closing parenthesis (code point 41) of a
segment, if any: the greedy `.*` followed by a literal parenthesis ends the
regex match at the last parenthesis of the line. -/
def lastClosePos (seg : PyStr) : Option Nat :=
  match seg.reverse.findIdx? (fun c => c == 41) with
  | some k => some (seg.length - k)
  | none => none

/-- Attempted regex match of `\s*\(Serial:.*\)` at the head of `s`
(`re` module semantics: `\s*` runs to the first non-whitespace character,
which must start the literal `(Serial:`; `.` does not match a newline, so
the greedy `.*\)` ends at the last close-parenthesis before the next
newline).  Returns the length of the match. -/
def serialMatchLen (s : PyStr) : Option Nat :=
  let w := (s.takeWhile isWsN).length
  let rest := s.drop w
  if serialLit.isPrefixOf rest then
    let seg := (rest.drop serialLit.length).takeWhile (fun c => !(c == 10))
    match lastClosePos seg with
    | some p => some (w + serialLit.length + p)
    | none => none
  else none

/-- Replacement pass of `re.sub` for the serial-annotation pattern:
scan left to right, delete each non-overlapping leftmost match.
Fuel-indexed; `s.length` fuel always suffices since a match is nonempty. -/
def pySubSerialAux : Nat → PyStr → PyStr
  | 0, s => s
  | _ + 1, [] => []
  | fuel + 1, c :: rest =>
    match serialMatchLen (c :: rest) with
    | some len => pySubSerialAux fuel ((c :: rest).drop len)
    | none => c :: pySubSerialAux fuel rest

/-- Python `re.sub` of the serial-annotation pattern with the empty string. -/
def pySubSerial (s : PyStr) : PyStr := pySubSerialAux s.length s

/-- Embedding of `NetworkDevice._normalize_hostname` (devices.py lines
23-32): keep the first DNS label, delete serial annotations, strip
whitespace, lowercase. -/
def normalize_hostname (s : PyStr) : PyStr :=
  mapLower (pyStrip (pySubSerial (firstLabel s)))

/-- Exclude-pattern loop of `_determine_device_type` (devices.py lines
54-56): some exclude pattern is a case-insensitive substring of the
platform. -/
def excludeMatches (excludePlatforms : List PyStr) (platform : PyStr) : Bool :=
  excludePlatforms.any (fun p => containsSub (mapLower platform) (mapLower p))

/-- Embedding of `NetworkDevice._determine_device_type` (devices.py lines
49-71).  The exclude patterns win over everything; then the NX-OS, IOS-XE
and IOS substring checks in order; then the include patterns, the first
matching pattern being returned verbatim as the device type. -/
def determine_device_type (excludePlatforms includePlatforms : List PyStr)
    (platform : PyStr) : PyStr :=
  if excludeMatches excludePlatforms platform then
    pystr "excluded"
  else if containsSub (mapLower platform) (pystr "nx-os")
      || containsSub (mapLower platform) (pystr "nexus") then
    pystr "cisco_nxos"
  else if containsSub (mapLower platform) (pystr "ios-xe")
      || containsSub (mapLower platform) (pystr "ios xe") then
    pystr "cisco_xe"
  else if containsSub (mapLower platform) (pystr "ios") then
    pystr "cisco_ios"
  else
    match includePlatforms.find?
        (fun p => containsSub (mapLower platform) (mapLower p)) with
    | some p => p
    | none => pystr "unknown"

/-- Embedding of `NetworkDevice.is_infrastructure_device` (devices.py lines
73-75). -/
def is_infrastructure_device (deviceType : PyStr) : Bool :=
  !(deviceType == pystr "excluded") && !(deviceType == pystr "unknown")

/-- One entry of the list produced by `DeviceConnection._parse_cdp_neighbors`
(connect.py lines 222-229). -/
structure CdpNeighbor where
  hostname : PyStr
  platform : PyStr
  ip_address : PyStr
  local_interface : PyStr
  remote_interface : PyStr
  capabilities : PyStr
  deriving Repr, DecidableEq

/-- State of a `NetworkDevice` object (devices.py lines 14-21).  The
constructor normalizes the hostname and leaves platform, serial number and
device type unset (Python `None`); `raw_data` is modelled by its only
engine-relevant projection, the parsed CDP neighbor list. -/
structure NetDevice where
  hostname : PyStr
  ip_address : PyStr
  platform : Option PyStr
  serial_number : Option PyStr
  device_type : Option PyStr
  cdp_neighbors : List CdpNeighbor
  deriving Repr, DecidableEq

/-- Embedding of `NetworkDevice.__init__` (devices.py lines 15-21). -/
def mkNetworkDevice (hostname ip : PyStr) : NetDevice :=
  ⟨normalize_hostname hostname, ip, none, none, none, []⟩

/-- One record of `template.ParseText` output for the version template,
with the uppercase fields read by `_parse_show_version`. -/
structure VersionRec where
  platform : PyStr
  version : PyStr
  uptime : PyStr
  serial : PyStr
  deriving Repr, DecidableEq

/-- Dictionary built by `DeviceConnection._parse_show_version` (connect.py
lines 169-174); the empty dictionary is the record with all fields empty,
matching the `data.get(key, default)` reads in `update_from_show_version`. -/
def emptyVersionRec : VersionRec := ⟨[], [], [], []⟩

/-- One record of `template.ParseText` output for the inventory template. -/
structure InvRec where
  name : PyStr
  sn : PyStr
  pid : PyStr
  descr : PyStr
  deriving Repr, DecidableEq

/-- Dictionary built by `DeviceConnection._parse_show_inventory` (connect.py
lines 193-197). -/
structure InvData where
  serial_number : PyStr
  part_number : PyStr
  description : PyStr
  deriving Repr, DecidableEq

/-- One record of `template.ParseText` output for the CDP template. -/
structure CdpRec where
  device_id : PyStr
  platform : PyStr
  management_ip : PyStr
  local_interface : PyStr
  port_id : PyStr
  capability : PyStr
  deriving Repr, DecidableEq

/-- Environment of one `DeviceConnection` session.  `connectOk` is the
outcome of `connect()` after its retry loop; `exec` is
`execute_command` after its retry loop (`none` models a permanent command
failure); the three parse oracles are `template.ParseText` on the
corresponding template (a template-load or parse exception is modelled by
an empty record list, which the parser wrappers treat identically).  The
two pattern lists are the filtering configuration read by
`_determine_device_type`. -/
structure SessionEnv where
  connectOk : Bool
  exec : PyStr → Option PyStr
  parseVersion : PyStr → List VersionRec
  parseInventory : PyStr → List InvRec
  parseCdp : PyStr → List CdpRec
  excludePlatforms : List PyStr
  includePlatforms : List PyStr

/-- Embedding of `NetworkDevice.update_from_show_version` (devices.py lines
34-38): sets the platform, then classifies the device type from it. -/
def update_from_show_version (env : SessionEnv) (dev : NetDevice)
    (data : VersionRec) : NetDevice :=
  { dev with
    platform := some data.platform
    device_type :=
      some (determine_device_type env.excludePlatforms env.includePlatforms data.platform) }

/-- Embedding of `NetworkDevice.update_from_show_inventory` (devices.py
lines 40-43). -/
def update_from_show_inventory (dev : NetDevice) (data : InvData) : NetDevice :=
  { dev with serial_number := some data.serial_number }

/-- Embedding of `DeviceConnection._parse_show_version` (connect.py lines
156-178).  When the device platform is still unset (Python `None`, the
state of every fresh `NetworkDevice`), `_load_template` line 29 evaluates
`self.device.platform.lower()` and raises `AttributeError`, which the
enclosing handler turns into the empty dictionary.  Otherwise the first
parsed record is authoritative, and zero records also yield the empty
dictionary. -/
def parse_show_version (env : SessionEnv) (dev : NetDevice)
    (output : PyStr) : VersionRec :=
  match dev.platform with
  | none => emptyVersionRec
  | some _ =>
    match env.parseVersion output with
    | [] => emptyVersionRec
    | r :: _ => r

/-- Embedding of `DeviceConnection._parse_show_inventory` (connect.py lines
180-203): select the first record whose `NAME` contains `chassis`
(case-insensitive); the unset-platform `AttributeError` path and the
zero-record path both yield the empty dictionary. -/
def parse_show_inventory (env : SessionEnv) (dev : NetDevice)
    (output : PyStr) : InvData :=
  match dev.platform with
  | none => ⟨[], [], []⟩
  | some _ =>
    match (env.parseInventory output).find?
        (fun r => containsSub (mapLower r.name) (pystr "chassis")) with
    | some r => ⟨r.sn, r.pid, r.descr⟩
    | none => ⟨[], [], []⟩

/-- Device-id cleanup in `_parse_cdp_neighbors` (connect.py line 220):
`split(chr(46))[0]`, then the part before the first open parenthesis, then
strip. -/
def cleanDeviceId (s : PyStr) : PyStr :=
  pyStrip ((firstLabel s).takeWhile (fun c => !(c == 40)))

/-- Embedding of `DeviceConnection._parse_cdp_neighbors` (connect.py lines
205-235): keep only records with a truthy management IP, cleaning the
device id. -/
def parse_cdp_neighbors (env : SessionEnv) (dev : NetDevice)
    (output : PyStr) : List CdpNeighbor :=
  match dev.platform with
  | none => []
  | some _ =>
    (env.parseCdp output).filterMap (fun r =>
      if r.management_ip.isEmpty then none
      else some ⟨cleanDeviceId r.device_id, r.platform, r.management_ip,
                 r.local_interface, r.port_id, r.capability⟩)

/-- Transport device-type reassignment in `DeviceConnection.process_device`
(connect.py lines 119-125): the code tests the substrings `nx-os` and
`iosxe` on the lowercased platform. -/
def connectionDeviceType (platform : PyStr) : PyStr :=
  if containsSub (mapLower platform) (pystr "nx-os") then pystr "cisco_nxos"
  else if containsSub (mapLower platform) (pystr "iosxe") then pystr "cisco_xe"
  else pystr "cisco_ios"

/-- Result of one session: the boolean returned by `process_device`, the
final `NetworkDevice` state, and the transport `device_type` at the end of
the session (`none` when no connection was established; the initial value
after `connect()` is the `cisco_ios` default of connect.py line 47). -/
structure SessionOutcome where
  success : Bool
  dev : NetDevice
  transportType : Option PyStr
  deriving Repr, DecidableEq

/-- Embedding of `DeviceConnection.process_device` (connect.py lines
104-154): connect; fail on falsy `show version` output; parse the version
and classify; reassign the transport device type; run the inventory and
CDP phases, whose failures leave the corresponding facts empty; adopt a
self-neighbor management IP when the device has none. -/
def process_device (env : SessionEnv) (dev0 : NetDevice) : SessionOutcome :=
  if !env.connectOk then ⟨false, dev0, none⟩
  else
    match env.exec (pystr "show version") with
    | none => ⟨false, dev0, some (pystr "cisco_ios")⟩
    | some vOut =>
      if vOut.isEmpty then ⟨false, dev0, some (pystr "cisco_ios")⟩
      else
        let vData := parse_show_version env dev0 vOut
        let dev1 := update_from_show_version env dev0 vData
        let t := connectionDeviceType (dev1.platform.getD [])
        let dev2 :=
          match env.exec (pystr "show inventory") with
          | none => dev1
          | some invOut =>
            if invOut.isEmpty then dev1
            else update_from_show_inventory dev1 (parse_show_inventory env dev1 invOut)
        let dev3 :=
          match env.exec (pystr "show cdp neighbors detail") with
          | none => dev2
          | some cdpOut =>
            if cdpOut.isEmpty then dev2
            else
              let nbrs := parse_cdp_neighbors env dev2 cdpOut
              let devA := { dev2 with cdp_neighbors := nbrs }
              if devA.ip_address.isEmpty && !nbrs.isEmpty then
                match nbrs.find?
                    (fun n => mapLower n.hostname == mapLower devA.hostname) with
                | some n => { devA with ip_address := n.ip_address }
                | none => devA
              else devA
        ⟨true, dev3, some t⟩

/-- Embedding of `NetworkDevice.get_cdp_neighbors` (devices.py lines
87-112): keep neighbors with a truthy IP that classify as infrastructure,
projecting each to a normalized `(hostname, ip)` pair. -/
def get_cdp_neighbors (env : SessionEnv) (dev : NetDevice) : List (PyStr × PyStr) :=
  dev.cdp_neighbors.filterMap (fun n =>
    if n.ip_address.isEmpty then none
    else
      let tempType := determine_device_type env.excludePlatforms env.includePlatforms n.platform
      if is_infrastructure_device tempType then
        some (normalize_hostname n.hostname, n.ip_address)
      else none)

/-- Row of the `queue` table (data.py lines 34-43).  The SQLAlchemy column
defaults make both flags false and `processed_at` null on insert;
timestamps are modelled as abstract ticks.  Hostnames and IPs at the store
layer are opaque keys compared only for equality, so they are modelled as
Lean strings. -/
structure QueueEntry where
  hostname : String
  ip_address : String
  is_processing : Bool
  is_processed : Bool
  processed_at : Option Nat
  deriving Repr, DecidableEq

/-- Row of the `devices` table (data.py lines 19-29), restricted to the
columns the engine writes from `NetworkDevice.to_dict`. -/
structure DeviceRow where
  hostname : String
  ip_address : String
  platform : String
  serial_number : String
  device_type : String
  deriving Repr, DecidableEq

/-- The two tables of the persistent store, each in insertion order. -/
structure Store where
  devices : List DeviceRow
  queue : List QueueEntry
  deriving Repr, DecidableEq

/-- Fresh database. -/
def emptyStore : Store := ⟨[], []⟩

/-- Python truthiness of an optional string argument, as used by the
`if hostname:` and `if ip_address:` guards of `device_exists`. -/
def strTruthy : Option String → Bool
  | none => false
  | some s => !(s == "")

/-- Embedding of `DatabaseManager.device_exists` (data.py lines 100-116):
true when either table holds a row with the given hostname, or either
table holds a row with the given IP.  No queue flag is consulted. -/
def device_exists (st : Store) (hostname ip : Option String) : Bool :=
  (strTruthy hostname &&
    (st.devices.any (fun d => d.hostname == hostname.getD "") ||
     st.queue.any (fun e => e.hostname == hostname.getD ""))) ||
  (strTruthy ip &&
    (st.devices.any (fun d => d.ip_address == ip.getD "") ||
     st.queue.any (fun e => e.ip_address == ip.getD "")))

/-- Embedding of `DatabaseManager.add_to_queue` (data.py lines 63-71). -/
def add_to_queue (st : Store) (hostname ip : String) : Store :=
  { st with queue := st.queue ++ [⟨hostname, ip, false, false, none⟩] }

/-- Embedding of `DatabaseManager.add_device` (data.py lines 56-61). -/
def add_device (st : Store) (row : DeviceRow) : Store :=
  { st with devices := st.devices ++ [row] }

/-- Update of the first queue row matching the hostname, as performed by
`DatabaseManager.mark_processing` (data.py lines 73-80): set
`is_processing` only.  Returns the found flag and the new table. -/
def setProcessing (h : String) : List QueueEntry → Bool × List QueueEntry
  | [] => (false, [])
  | e :: rest =>
    if e.hostname == h then
      (true, { e with is_processing := true } :: rest)
    else
      let (b, rest') := setProcessing h rest
      (b, e :: rest')

/-- Embedding of `DatabaseManager.mark_processing` (data.py lines 73-80). -/
def mark_processing (st : Store) (h : String) : Bool × Store :=
  ((setProcessing h st.queue).1, { st with queue := (setProcessing h st.queue).2 })

/-- Update of the first queue row matching the hostname, as performed by
`DatabaseManager.mark_processed` (data.py lines 82-91): set `is_processed`,
clear `is_processing`, stamp `processed_at`. -/
def setProcessed (now : Nat) (h : String) : List QueueEntry → Bool × List QueueEntry
  | [] => (false, [])
  | e :: rest =>
    if e.hostname == h then
      (true, { e with is_processed := true, is_processing := false,
                      processed_at := some now } :: rest)
    else
      let (b, rest') := setProcessed now h rest
      (b, e :: rest')

/-- Embedding of `DatabaseManager.mark_processed` (data.py lines 82-91). -/
def mark_processed (now : Nat) (st : Store) (h : String) : Bool × Store :=
  ((setProcessed now h st.queue).1, { st with queue := (setProcessed now h st.queue).2 })

/-- Session oracle seen by the worker: `none` when `process_device`
returned false, otherwise the `device.to_dict()` projection together with
the `device.get_cdp_neighbors()` list (crawler.py lines 106-112). -/
abbrev WorkerSession := String → String → Option (DeviceRow × List (String × String))

/-- Neighbor admission loop of the worker (crawler.py lines 112-116): for
each neighbor absent from the store, insert a queue row and collect the
pair for the frontier. -/
def admitNeighbors (st : Store) : List (String × String) → Store × List (String × String)
  | [] => (st, [])
  | (h, ip) :: rest =>
    if device_exists st (some h) (some ip) then admitNeighbors st rest
    else
      let st' := add_to_queue st h ip
      let (st'', items) := admitNeighbors st' rest
      (st'', (h, ip) :: items)

/-- Store effect of one pulled item in `NetworkCrawler.worker` (crawler.py
lines 93-119): discard when `device_exists` is true; otherwise mark
processing, run the session, on success insert the device row and admit
its neighbors, and finally mark processed.  Returns the new store and the
items put on the in-memory frontier. -/
def workerStep (sess : WorkerSession) (now : Nat) (st : Store)
    (item : String × String) : Store × List (String × String) :=
  let (h, ip) := item
  if device_exists st (some h) (some ip) then (st, [])
  else
    let st1 := (mark_processing st h).2
    match sess h ip with
    | some (row, neighbors) =>
      let st2 := add_device st1 row
      let (st3, newItems) := admitNeighbors st2 neighbors
      ((mark_processed now st3 h).2, newItems)
    | none => ((mark_processed now st1 h).2, [])

/-- Embedding of `NetworkCrawler.add_seed_device` (crawler.py lines 74-83):
admit the seed into the queue table and the frontier unless a record
already exists. -/
def add_seed_device (st : Store) (front : List (String × String))
    (h ip : String) : Store × List (String × String) :=
  if device_exists st (some h) (some ip) then (st, front)
  else (add_to_queue st h ip, front ++ [(h, ip)])

/-- Sequential execution of worker iterations until the frontier drains
(single-worker schedule of the crawl; fuel bounds the number of
iterations). -/
def runWorker (sess : WorkerSession) (now : Nat) :
    Nat → Store → List (String × String) → Store
  | 0, st, _ => st
  | _ + 1, st, [] => st
  | fuel + 1, st, item :: rest =>
    let (st', newItems) := workerStep sess now st item
    runWorker sess now fuel st' (rest ++ newItems)

/-- State of the in-memory `queue.Queue` frontier: the pending items and
the unfinished-task counter (incremented by `put`, decremented by
`task_done`; `get` does not touch it). -/
structure PyQueue where
  items : List (String × String)
  unfinished : Nat
  deriving Repr, DecidableEq

/-- Semantics of `queue.Queue.task_done`: raises `ValueError` when called
more times than there were items put, i.e. when the unfinished counter is
already zero. -/
def task_done (q : PyQueue) : Except Unit PyQueue :=
  if q.unfinished = 0 then Except.error ()
  else Except.ok { q with unfinished := q.unfinished - 1 }

/-- Outcome of one pass through the worker loop body: either control
returns to the `while` condition, or an exception escapes the loop and the
thread terminates. -/
inductive IterOutcome where
  | continueLoop (st : Store) (q : PyQueue)
  | threadDeath (st : Store) (q : PyQueue)
  deriving Repr, DecidableEq

/-- Embedding of one iteration of `NetworkCrawler.worker` (crawler.py lines
89-130), with the exception flow made explicit.  On a `get` timeout the
`queue.Empty` handler runs `continue`, but the `finally` clause still calls
`task_done`; a `ValueError` raised there is caught by no handler and kills
the thread.  On the discard path `task_done` is called at line 95 and again
in the `finally` clause; if the first call raises, the `except Exception`
handler swallows it and the `finally` call raises again.  On the process
path the store effects are those of `workerStep` and each admitted neighbor
is `put` on the frontier before the single `finally` `task_done`. -/
def workerIteration (sess : WorkerSession) (now : Nat) (st : Store)
    (q : PyQueue) : IterOutcome :=
  match q.items with
  | [] =>
    match task_done q with
    | Except.error _ => IterOutcome.threadDeath st q
    | Except.ok q' => IterOutcome.continueLoop st q'
  | (h, ip) :: rest =>
    let q1 : PyQueue := ⟨rest, q.unfinished⟩
    if device_exists st (some h) (some ip) then
      match task_done q1 with
      | Except.error _ =>
        -- line 95 raised, the handler logged it, and the finally clause
        -- raises again from the same zero counter
        IterOutcome.threadDeath st q1
      | Except.ok q2 =>
        match task_done q2 with
        | Except.error _ => IterOutcome.threadDeath st q2
        | Except.ok q3 => IterOutcome.continueLoop st q3
    else
      let (st', newItems) := workerStep sess now st (h, ip)
      let q2 : PyQueue := ⟨q1.items ++ newItems, q1.unfinished + newItems.length⟩
      match task_done q2 with
      | Except.error _ => IterOutcome.threadDeath st' q2
      | Except.ok q3 => IterOutcome.continueLoop st' q3

/-- One store operation of the kind the engine issues: admission (the
`device_exists` guard plus `add_to_queue`, crawler.py lines 78-79 and
113-114) and the two queue-flag updates. -/
inductive StoreOp where
  | admitKey (hostname ip : String)
  | markProcessing (hostname : String)
  | markProcessed (hostname : String)
  deriving Repr, DecidableEq

/-- Effect of one store operation. -/
def applyOp (now : Nat) (st : Store) : StoreOp → Store
  | StoreOp.admitKey h ip =>
    if device_exists st (some h) (some ip) then st else add_to_queue st h ip
  | StoreOp.markProcessing h => (mark_processing st h).2
  | StoreOp.markProcessed h => (mark_processed now st h).2

/-- Fold of a sequence of store operations. -/
def runOps (now : Nat) (ops : List StoreOp) (st : Store) : Store :=
  ops.foldl (applyOp now) st

/-- Engine discipline on one operation: `mark_processing` is only issued
for a hostname whose queue rows are not yet processed (the worker marks a
host processing only right after admitting it). -/
def opAllowed (st : Store) : StoreOp → Bool
  | StoreOp.markProcessing h =>
    !(st.queue.any (fun e => e.hostname == h && e.is_processed))
  | _ => true

/-- Engine discipline on a whole run of store operations. -/
def okRun (now : Nat) : List StoreOp → Store → Bool
  | [], _ => true
  | op :: rest, st => opAllowed st op && okRun now rest (applyOp now st op)

/-- Queue-table invariant 4 of the specification: no row has
`is_processing` and `is_processed` set together. -/
def ppInvariant (st : Store) : Bool :=
  st.queue.all (fun e => !e.is_processing || !e.is_processed)

/-- Names defined at module level in crawler.py: its imports (lines 1-10)
and its module-level assignments (`logger`, `config`, the `with` target
`f`, and the class `NetworkCrawler`). -/
def crawlerModuleNames : List String :=
  ["logging", "threading", "queue", "time", "List", "Dict", "yaml",
   "NetworkDevice", "DeviceConnection", "DatabaseManager", "datetime",
   "timedelta", "logger", "config", "f", "NetworkCrawler"]

/-- Python builtin names relevant to `export_inventory`; `Device` and `os`
are not builtins. -/
def pythonBuiltins : List String :=
  ["open", "print", "len", "range", "set", "str", "int", "Exception"]

/-- Name resolution for a global reference inside a crawler.py method:
module globals, then builtins. -/
def nameResolvesInCrawler (n : String) : Bool :=
  crawlerModuleNames.contains n || pythonBuiltins.contains n

/-- Outcome of `NetworkCrawler.export_inventory` (crawler.py lines
165-190): its first statement after opening a session evaluates
`session.query(Device)`, so the call raises `NameError` unless the global
name `Device` resolves (the body also references the unimported `os`). -/
def export_inventory_outcome : Except String Unit :=
  if nameResolvesInCrawler "Device" then Except.ok ()
  else Except.error "NameError"

/-- Exit code of `main` (main.py lines 25-49) for a run whose crawl phase
completed and reached the export step: an exception from
`export_inventory` is caught by the outer handler, which calls
`sys.exit(1)`; without an exception `main` returns and the process exits 0. -/
def main_exit_code_after_crawl : Nat :=
  match export_inventory_outcome with
  | Except.ok _ => 0
  | Except.error _ => 1

/-- Store holding exactly one pending queue row for the seed and no device
rows: the state a worker sees when it pulls the seed item. -/
def pendingSeedStore : Store :=
  ⟨[], [⟨"rtr-a", "10.0.0.1", false, false, none⟩]⟩

/-- Session oracle for a healthy single IOS device with no neighbors
(the S1 fake transport of the specification). -/
def s1Session : WorkerSession :=
  fun _ _ => some (⟨"rtr-a", "10.0.0.1", "Cisco IOS Software", "", "cisco_ios"⟩, [])

/-- Session environment whose device answers `show version` with output
parsing to an IOS-XE platform record, and gives nothing for the other two
commands. -/
def xeSessionEnv : SessionEnv :=
  ⟨true,
   fun c => if c == pystr "show version" then some (pystr "version output") else none,
   fun _ => [⟨pystr "Cisco IOS XE Software, Version 17.3", [], [], []⟩],
   fun _ => [], fun _ => [], [], []⟩

/-- Session environment whose device answers `show version` with non-empty
output that parses to zero records. -/
def zeroParseEnv : SessionEnv :=
  ⟨true,
   fun c => if c == pystr "show version" then some (pystr "unrecognized banner") else none,
   fun _ => [], fun _ => [], fun _ => [], [], []⟩

/-- Operation sequence that violates queue invariant 4: mark a host
processed, then mark it processing again. -/
def c8BadOps : List StoreOp :=
  [StoreOp.admitKey "a" "1", StoreOp.markProcessed "a", StoreOp.markProcessing "a"]

/-- Truthiness of the raw `show version` output in a session environment
(the guard of connect.py line 112). -/
def versionOutputTruthy (env : SessionEnv) : Bool :=
  match env.exec (pystr "show version") with
  | none => false
  | some o => !o.isEmpty

/-- Worker session oracle for a session that fails (`process_device`
returned false). -/
def failSession : WorkerSession := fun _ _ => none

example : normalize_hostname (pystr "RTR-A.example.com") = pystr "rtr-a" := by decide
example : normalize_hostname (pystr "sw1 (Serial: ABC123)") = pystr "sw1" := by decide
example : determine_device_type [] [] (pystr "Cisco IOS Software") = pystr "cisco_ios" := by decide
example : determine_device_type [] [] (pystr "Cisco Nexus Operating System (NX-OS)") = pystr "cisco_nxos" := by decide

/-- C1: the claim says a pulled item whose only store record is a pending
queue row (both flags false) must be marked processing and given a
session.  In the code `device_exists` is true for any record, so the
worker discards exactly this item: the store is returned unchanged, no
`mark_processing` happens, and no session runs. -/
theorem c1_worker_discards_pending_item :
    pendingSeedStore.devices = [] ∧
    pendingSeedStore.queue = [⟨"rtr-a", "10.0.0.1", false, false, none⟩] ∧
    device_exists pendingSeedStore (some "rtr-a") (some "10.0.0.1") = true ∧
    workerStep s1Session 0 pendingSeedStore ("rtr-a", "10.0.0.1") = (pendingSeedStore, []) :=
  ⟨rfl, rfl, by decide, by decide⟩

/-- C2: the claim says seeding a single healthy IOS device yields a
Devices table with exactly that one row.  In the code the seed is admitted
to the queue table before it is pulled, so the worker discard check fires
on the seed itself: after the crawl drains, the Devices table is empty and
the seed queue row is never even marked processed. -/
theorem c2_single_seed_run_has_empty_devices_table :
    (add_seed_device emptyStore [] "rtr-a" "10.0.0.1").1 = pendingSeedStore ∧
    (add_seed_device emptyStore [] "rtr-a" "10.0.0.1").2 = [("rtr-a", "10.0.0.1")] ∧
    (runWorker s1Session 0 8
      (add_seed_device emptyStore [] "rtr-a" "10.0.0.1").1
      (add_seed_device emptyStore [] "rtr-a" "10.0.0.1").2) = pendingSeedStore ∧
    pendingSeedStore.devices = [] :=
  ⟨by decide, by decide, by decide, rfl⟩

/-- C3: the claim says a frontier-take timeout just loops, and no exception
raised in the loop kills the worker thread.  In the code the `finally`
clause calls `task_done` even on the timeout path, so with the
unfinished-task counter at zero the call raises `ValueError` outside every
handler and the thread dies; the discard path calls `task_done` twice and
dies the same way. -/
theorem c3_worker_thread_dies_on_timeout_and_discard :
    workerIteration s1Session 0 emptyStore ⟨[], 0⟩
      = IterOutcome.threadDeath emptyStore ⟨[], 0⟩ ∧
    workerIteration s1Session 0 pendingSeedStore ⟨[("rtr-a", "10.0.0.1")], 1⟩
      = IterOutcome.threadDeath pendingSeedStore ⟨[], 0⟩ :=
  ⟨by decide, by decide⟩

/-- C5: the claim says a run that crawls the seed and exports the inventory
exits with code 0.  In the code `export_inventory` references the global
names `Device` and `os`, neither of which crawler.py imports, so the
export raises `NameError`, `main` catches it and calls `sys.exit(1)`: a
completed crawl exits 1, and no run reaches a clean completion. -/
theorem c5_completed_crawl_exits_one :
    main_exit_code_after_crawl = 1 ∧
    nameResolvesInCrawler "Device" = false ∧
    nameResolvesInCrawler "os" = false :=
  ⟨by decide, by decide, by decide⟩

/-- C7: the claim says a parsed platform indicating IOS-XE (substrings
ios-xe or ios xe) or NX-OS makes the session reassign the transport device
type to the matching variant.  In the code the IOS-XE test looks for the
substring iosxe, which neither spelled form contains, and a nexus platform
without the literal nx-os also falls through, so the classifier and the
transport branch disagree; moreover in a real session the version parse
always yields an empty platform (the template chooser dereferences the
still-unset platform), so the transport ends every identify step as
cisco_ios. -/
theorem c7_transport_type_never_reconfigured_for_ios_xe :
    determine_device_type [] [] (pystr "Cisco IOS XE Software, Version 17.3")
      = pystr "cisco_xe" ∧
    connectionDeviceType (pystr "Cisco IOS XE Software, Version 17.3")
      = pystr "cisco_ios" ∧
    determine_device_type [] [] (pystr "Nexus 9000 C9336") = pystr "cisco_nxos" ∧
    connectionDeviceType (pystr "Nexus 9000 C9336") = pystr "cisco_ios" ∧
    (process_device xeSessionEnv
        (mkNetworkDevice (pystr "rtr-a") (pystr "10.0.0.1"))).transportType
      = some (pystr "cisco_ios") ∧
    (process_device xeSessionEnv
        (mkNetworkDevice (pystr "rtr-a") (pystr "10.0.0.1"))).success = true :=
  ⟨by decide, by decide, by decide, by decide, by decide, by decide⟩

/-- C4 counterexample: a session whose `show version` output parses to zero
records nevertheless returns success, contradicting the claim that such a
session fails. -/
theorem c4_zero_record_parse_still_succeeds :
    zeroParseEnv.parseVersion (pystr "unrecognized banner") = [] ∧
    (process_device zeroParseEnv
        (mkNetworkDevice (pystr "rtr-a") (pystr "10.0.0.1"))).success = true :=
  ⟨rfl, by decide⟩

/-- C6 counterexample: with exclude pattern linux, the platform string
Linux Nexus Emulator contains nexus yet classifies as excluded, because
the exclude check runs first; and with include pattern excluded, a
platform matching it classifies as excluded although no exclude pattern
matched. -/
theorem c6_exclude_beats_nexus :
    containsSub (mapLower (pystr "Linux Nexus Emulator")) (pystr "nexus") = true ∧
    determine_device_type [pystr "linux"] [] (pystr "Linux Nexus Emulator")
      = pystr "excluded" ∧
    ¬ determine_device_type [pystr "linux"] [] (pystr "Linux Nexus Emulator")
      = pystr "cisco_nxos" ∧
    determine_device_type [] [pystr "excluded"] (pystr "totally excluded box")
      = pystr "excluded" :=
  ⟨by decide, by decide, by decide, by decide⟩

/-- C8 counterexample: `mark_processing` sets `is_processing` without
checking or clearing `is_processed`, so a sequence that marks a processed
host as processing leaves a queue row with both flags set. -/
theorem c8_mark_processing_breaks_invariant :
    ppInvariant (runOps 0 c8BadOps emptyStore) = false ∧
    runOps 0 c8BadOps emptyStore
      = ⟨[], [⟨"a", "1", true, true, some 0⟩]⟩ :=
  ⟨by decide, by decide⟩

/-- Helper for C10: `setProcessed` is the identity pair when no row matches
the hostname. -/
theorem setProcessed_not_found (now : Nat) (h : String) :
    ∀ q : List QueueEntry, (∀ e ∈ q, (e.hostname == h) = false) →
      setProcessed now h q = (false, q)
  | [], _ => rfl
  | e :: rest, hq => by
    have h1 : (e.hostname == h) = false := hq e (List.mem_cons_self e rest)
    have ih := setProcessed_not_found now h rest
      (fun x hx => hq x (List.mem_cons_of_mem e hx))
    simp [setProcessed, h1, ih]

/-- C10: calling `mark_processed` for a hostname with no queue row returns
false and leaves the whole store (both tables, every field) unchanged. -/
theorem c10_mark_processed_missing_is_noop (now : Nat) (h : String) (st : Store)
    (habs : ∀ e ∈ st.queue, (e.hostname == h) = false) :
    mark_processed now st h = (false, st) := by
  simp [mark_processed, setProcessed_not_found now h st.queue habs]

/-- Witness for C10 at a concrete store missing the hostname sw-9. -/
theorem c10_mark_processed_missing_is_noop_witness :
    mark_processed 5 pendingSeedStore "sw-9" = (false, pendingSeedStore) :=
  c10_mark_processed_missing_is_noop 5 "sw-9" pendingSeedStore (by decide)

/-- C4 (amended): a session fails exactly when the connection fails or the
raw `show version` output is falsy (command failure or empty string); a
non-empty output never fails the session, even when it parses to zero
records.  For a failed session the worker inserts no device row. -/
theorem c4_session_fails_iff_no_version_output :
    (∀ (env : SessionEnv) (dev : NetDevice),
      (process_device env dev).success = (env.connectOk && versionOutputTruthy env)) ∧
    (∀ (now : Nat) (st : Store) (item : String × String),
      ((workerStep failSession now st item).1).devices = st.devices) := by
  constructor
  · intro env dev
    unfold process_device versionOutputTruthy
    cases hc : env.connectOk
    · simp
    · cases he : env.exec (pystr "show version") with
      | none => simp
      | some o =>
        cases ho : o.isEmpty
        · simp [ho]
        · simp [ho]
  · intro now st item
    obtain ⟨h, ip⟩ := item
    unfold workerStep
    cases hde : device_exists st (some h) (some ip)
    · simp [hde, failSession, mark_processing, mark_processed]
    · simp [hde]

/-- C6 (amended): a platform string containing nx-os or nexus
(case-insensitive) classifies as cisco_nxos provided no exclude pattern
matches it, because the exclude check runs first; and, as long as the
operator has not supplied the literal include pattern excluded,
classification returns excluded exactly for platform strings matching an
exclude pattern. -/
theorem c6_classification_amended (ex inc : List PyStr) (platform : PyStr)
    (hinc : ¬ pystr "excluded" ∈ inc) :
    (excludeMatches ex platform = false →
      (containsSub (mapLower platform) (pystr "nx-os")
        || containsSub (mapLower platform) (pystr "nexus")) = true →
      determine_device_type ex inc platform = pystr "cisco_nxos") ∧
    (determine_device_type ex inc platform = pystr "excluded"
      ↔ excludeMatches ex platform = true) := by
  constructor
  · intro hex hnx
    simp [determine_device_type, hex, hnx]
  · constructor
    · intro heq
      cases hex : excludeMatches ex platform
      · exfalso
        simp only [determine_device_type, hex, Bool.false_eq_true, if_false] at heq
        split at heq
        · exact absurd heq (by decide)
        · split at heq
          · exact absurd heq (by decide)
          · split at heq
            · exact absurd heq (by decide)
            · split at heq
              · rename_i p hf
                exact hinc (heq ▸ List.mem_of_find?_eq_some hf)
              · exact absurd heq (by decide)
      · rfl
    · intro hex
      simp [determine_device_type, hex]

/-- Witness for C6 (amended) at a concrete configuration: no include
pattern named excluded, empty exclude list, an NX-OS platform string. -/
theorem c6_classification_amended_witness :
    determine_device_type [] [pystr "juniper"] (pystr "Cisco NX-OS Software")
        = pystr "cisco_nxos" ∧
    (determine_device_type [] [pystr "juniper"] (pystr "Cisco NX-OS Software")
        = pystr "excluded"
      ↔ excludeMatches [] (pystr "Cisco NX-OS Software") = true) :=
  ⟨(c6_classification_amended [] [pystr "juniper"] (pystr "Cisco NX-OS Software")
      (by decide)).1 (by decide) (by decide),
   (c6_classification_amended [] [pystr "juniper"] (pystr "Cisco NX-OS Software")
      (by decide)).2⟩

/-- Helper for C8: `mark_processing` keeps the flag invariant provided no
row for the hostname is already processed. -/
theorem all_rowInv_setProcessing (h : String) (q : List QueueEntry)
    (hinv : q.all (fun e => !e.is_processing || !e.is_processed) = true)
    (hok : q.any (fun e => e.hostname == h && e.is_processed) = false) :
    ((setProcessing h q).2).all (fun e => !e.is_processing || !e.is_processed) = true := by
  induction q with
  | nil => rfl
  | cons e0 rest ih =>
    simp only [List.all_cons, Bool.and_eq_true] at hinv
    simp only [List.any_cons, Bool.or_eq_false_iff] at hok
    cases hh : e0.hostname == h
    · simp only [setProcessing, hh, Bool.false_eq_true, if_false, List.all_cons,
        Bool.and_eq_true]
      exact ⟨hinv.1, ih hinv.2 hok.2⟩
    · have hp : e0.is_processed = false := by
        have h1 := hok.1
        rw [hh] at h1
        simpa using h1
      simp [setProcessing, hh, List.all_cons, hp, hinv.2]

/-- Helper for C8: `mark_processed` keeps the flag invariant
unconditionally, since it clears `is_processing` on the row it stamps. -/
theorem all_rowInv_setProcessed (now : Nat) (h : String) (q : List QueueEntry)
    (hinv : q.all (fun e => !e.is_processing || !e.is_processed) = true) :
    ((setProcessed now h q).2).all (fun e => !e.is_processing || !e.is_processed) = true := by
  induction q with
  | nil => rfl
  | cons e0 rest ih =>
    simp only [List.all_cons, Bool.and_eq_true] at hinv
    cases hh : e0.hostname == h
    · simp only [setProcessed, hh, Bool.false_eq_true, if_false, List.all_cons,
        Bool.and_eq_true]
      exact ⟨hinv.1, ih hinv.2⟩
    · simp [setProcessed, hh, List.all_cons, hinv.2]

/-- Helper for C8: every allowed store operation preserves the flag
invariant. -/
theorem ppInvariant_applyOp (now : Nat) (st : Store) (op : StoreOp)
    (hinv : ppInvariant st = true) (hok : opAllowed st op = true) :
    ppInvariant (applyOp now st op) = true := by
  cases op with
  | admitKey h ip =>
    cases hde : device_exists st (some h) (some ip)
    · simp only [applyOp, hde, Bool.false_eq_true, if_false]
      simp only [ppInvariant, add_to_queue] at hinv ⊢
      simp [List.all_append, hinv]
    · simpa [applyOp, hde] using hinv
  | markProcessing h =>
    have hok' : st.queue.any (fun e => e.hostname == h && e.is_processed) = false := by
      simpa [opAllowed] using hok
    simpa [applyOp, mark_processing, ppInvariant] using
      all_rowInv_setProcessing h st.queue (by simpa [ppInvariant] using hinv) hok'
  | markProcessed h =>
    simpa [applyOp, mark_processed, ppInvariant] using
      all_rowInv_setProcessed now h st.queue (by simpa [ppInvariant] using hinv)

/-- Helper for C8: the invariant holds at the end of any allowed run. -/
theorem okRun_invariant (now : Nat) :
    ∀ (ops : List StoreOp) (st : Store), ppInvariant st = true →
      okRun now ops st = true → ppInvariant (runOps now ops st) = true
  | [], _, hinv, _ => hinv
  | op :: rest, st, hinv, hok => by
    simp only [okRun, Bool.and_eq_true] at hok
    exact okRun_invariant now rest (applyOp now st op)
      (ppInvariant_applyOp now st op hinv hok.1) hok.2

/-- Helper for C8: any prefix of an allowed run is an allowed run. -/
theorem okRun_of_append (now : Nat) :
    ∀ (pre suf : List StoreOp) (st : Store),
      okRun now (pre ++ suf) st = true → okRun now pre st = true
  | [], _, _, _ => rfl
  | op :: rest, suf, st, hok => by
    simp only [List.cons_append, okRun, Bool.and_eq_true] at hok ⊢
    exact ⟨hok.1, okRun_of_append now rest suf (applyOp now st op) hok.2⟩

/-- C8 (amended): in every sequence of admit, mark-processing and
mark-processed operations from the empty store in which mark-processing is
never issued for an already-processed hostname (the engine's discipline),
every queue row of every intermediate state satisfies is_processing implies
not is_processed.  Without that proviso the claim fails, because
`mark_processing` neither checks nor clears `is_processed`. -/
theorem c8_invariant_under_engine_discipline (now : Nat) (pre suf : List StoreOp)
    (hok : okRun now (pre ++ suf) emptyStore = true) :
    ppInvariant (runOps now pre emptyStore) = true :=
  okRun_invariant now pre emptyStore rfl (okRun_of_append now pre suf emptyStore hok)

/-- Witness for C8 (amended): the state in the middle of the run that
admits a host, marks it processing, then marks it processed. -/
theorem c8_invariant_under_engine_discipline_witness :
    ppInvariant (runOps 3
      [StoreOp.admitKey "a" "1", StoreOp.markProcessing "a"] emptyStore) = true :=
  c8_invariant_under_engine_discipline 3
    [StoreOp.admitKey "a" "1", StoreOp.markProcessing "a"]
    [StoreOp.markProcessed "a"] (by decide)

/-- Helper for C9: lowering a code point twice equals lowering it once. -/
theorem lowerN_idem (n : Nat) : lowerN (lowerN n) = lowerN n := by
  unfold lowerN
  split <;> (try split) <;> omega

/-- Helper for C9: lowering preserves whitespace-ness. -/
theorem isWs_lowerN (n : Nat) : isWsN (lowerN n) = isWsN n := by
  unfold isWsN lowerN
  split
  · rw [decide_eq_decide]
    omega
  · rfl

/-- Helper for C9: lowering never produces a dot. -/
theorem lowerN_ne_dot (n : Nat) (h : n ≠ 46) : lowerN n ≠ 46 := by
  unfold lowerN
  split <;> omega

/-- Helper for C9: lowering never produces a capital S (code point 83). -/
theorem lowerN_ne_S (n : Nat) : lowerN n ≠ 83 := by
  unfold lowerN
  split <;> omega

/-- Helper for C9: the serial-annotation substitution only deletes
characters. -/
theorem mem_pySubSerialAux {x : Nat} :
    ∀ (f : Nat) (s : PyStr), x ∈ pySubSerialAux f s → x ∈ s
  | 0, _, hx => hx
  | _ + 1, [], hx => hx
  | f + 1, c :: rest, hx => by
    simp only [pySubSerialAux] at hx
    split at hx
    · exact List.mem_of_mem_drop (mem_pySubSerialAux f _ hx)
    · rcases List.mem_cons.mp hx with h | h
      · exact List.mem_cons.mpr (Or.inl h)
      · exact List.mem_cons_of_mem c (mem_pySubSerialAux f rest h)

/-- Helper for C9: membership version for the wrapper. -/
theorem mem_pySubSerial {x : Nat} {s : PyStr} (hx : x ∈ pySubSerial s) : x ∈ s :=
  mem_pySubSerialAux s.length s hx

/-- Helper for C9: without a capital S the serial regex cannot match
anywhere, since its literal contains one. -/
theorem serialMatchLen_eq_none {s : PyStr} (hS : ¬ 83 ∈ s) :
    serialMatchLen s = none := by
  cases hp : serialLit.isPrefixOf (s.drop (s.takeWhile isWsN).length)
  · simp [serialMatchLen, hp]
  · exfalso
    have hpre : serialLit <+: s.drop (s.takeWhile isWsN).length :=
      List.isPrefixOf_iff_prefix.mp hp
    have h83 : 83 ∈ serialLit := by decide
    exact hS (List.mem_of_mem_drop (List.Sublist.mem h83 hpre.sublist))

/-- Helper for C9: the substitution is the identity on strings without a
capital S. -/
theorem pySubSerialAux_id_of_no_S :
    ∀ (f : Nat) (s : PyStr), ¬ 83 ∈ s → pySubSerialAux f s = s
  | 0, _, _ => rfl
  | _ + 1, [], _ => rfl
  | f + 1, c :: rest, hS => by
    simp only [pySubSerialAux, serialMatchLen_eq_none hS]
    rw [pySubSerialAux_id_of_no_S f rest (fun h => hS (List.mem_cons_of_mem c h))]

/-- Helper for C9: wrapper of the previous identity. -/
theorem pySubSerial_id_of_no_S {s : PyStr} (hS : ¬ 83 ∈ s) : pySubSerial s = s :=
  pySubSerialAux_id_of_no_S s.length s hS

/-- Helper for C9: dropping a prefix twice equals dropping it once. -/
theorem dropWhile_idem (p : Nat → Bool) :
    ∀ l : PyStr, (l.dropWhile p).dropWhile p = l.dropWhile p
  | [] => rfl
  | c :: rest => by
    cases hc : p c
    · simp [List.dropWhile_cons, hc]
    · simp only [List.dropWhile_cons, hc, if_true]
      exact dropWhile_idem p rest

/-- Helper for C9: if dropping leaves a list unchanged, its head fails the
predicate. -/
theorem head_false_of_dropWhile_eq_self {p : Nat → Bool} {a : Nat} {t : PyStr}
    (h : List.dropWhile p (a :: t) = a :: t) : p a = false := by
  cases hp : p a
  · rfl
  · exfalso
    rw [List.dropWhile_cons, hp, if_pos rfl] at h
    have hlen := (List.dropWhile_sublist (l := t) p).length_le
    have := congrArg List.length h
    simp at this
    omega

/-- Helper for C9: a stripped string has no leading whitespace. -/
theorem dropWhile_pyStrip (l : PyStr) :
    (pyStrip l).dropWhile isWsN = pyStrip l := by
  unfold pyStrip
  cases hrv : ((l.dropWhile isWsN).reverse.dropWhile isWsN).reverse with
  | nil => simp
  | cons a t =>
    have hpre : ((l.dropWhile isWsN).reverse.dropWhile isWsN).reverse
        <+: l.dropWhile isWsN := by
      have h0 : (l.dropWhile isWsN).reverse.dropWhile isWsN
          <:+ (l.dropWhile isWsN).reverse := List.dropWhile_suffix isWsN
      have h1 := List.reverse_prefix.mpr h0
      rwa [List.reverse_reverse] at h1
    rw [hrv] at hpre
    obtain ⟨u, hu⟩ := hpre
    have hm : List.dropWhile isWsN (l.dropWhile isWsN) = l.dropWhile isWsN :=
      dropWhile_idem isWsN l
    rw [← hu, List.cons_append] at hm
    have ha : isWsN a = false := head_false_of_dropWhile_eq_self hm
    rw [List.dropWhile_cons, ha]
    simp

/-- Helper for C9: a stripped string has no trailing whitespace. -/
theorem dropWhile_reverse_pyStrip (l : PyStr) :
    (pyStrip l).reverse.dropWhile isWsN = (pyStrip l).reverse := by
  unfold pyStrip
  rw [List.reverse_reverse]
  exact dropWhile_idem isWsN _

/-- Helper for C9: stripping is idempotent. -/
theorem pyStrip_idem (l : PyStr) : pyStrip (pyStrip l) = pyStrip l := by
  have h1 : pyStrip (pyStrip l)
      = (((pyStrip l).dropWhile isWsN).reverse.dropWhile isWsN).reverse := rfl
  rw [h1, dropWhile_pyStrip, dropWhile_reverse_pyStrip, List.reverse_reverse]

/-- Helper for C9: stripping commutes with lowering, since lowering
preserves whitespace-ness. -/
theorem pyStrip_mapLower (t : PyStr) :
    pyStrip (mapLower t) = mapLower (pyStrip t) := by
  have hfun : (isWsN ∘ lowerN) = isWsN := funext isWs_lowerN
  simp [pyStrip, mapLower, List.dropWhile_map, hfun, ← List.map_reverse]

/-- Helper for C9: lowering a string twice equals lowering it once. -/
theorem mapLower_idem (t : PyStr) : mapLower (mapLower t) = mapLower t := by
  simp only [mapLower, List.map_map]
  exact List.map_congr_left (fun a _ => lowerN_idem a)

/-- Helper for C9: stripping only deletes characters. -/
theorem mem_pyStrip {x : Nat} {l : PyStr} (hx : x ∈ pyStrip l) : x ∈ l := by
  unfold pyStrip at hx
  rw [List.mem_reverse] at hx
  have h1 := List.Sublist.mem hx (List.dropWhile_sublist isWsN)
  rw [List.mem_reverse] at h1
  exact List.Sublist.mem h1 (List.dropWhile_sublist isWsN)

/-- Helper for C9: every character of a normalized hostname is the lowering
of a character of the first label of the input. -/
theorem mem_normalize_hostname {x : Nat} {s : PyStr}
    (hx : x ∈ normalize_hostname s) : ∃ y, y ∈ firstLabel s ∧ x = lowerN y := by
  unfold normalize_hostname mapLower at hx
  obtain ⟨y, hy, hxy⟩ := List.mem_map.mp hx
  exact ⟨y, mem_pySubSerial (mem_pyStrip hy), hxy.symm⟩

/-- Helper for C9: a normalized hostname contains no dot. -/
theorem firstLabel_normalize_hostname (s : PyStr) :
    firstLabel (normalize_hostname s) = normalize_hostname s := by
  apply List.takeWhile_eq_self_iff.mpr
  intro x hx
  obtain ⟨y, hy, hxy⟩ := mem_normalize_hostname hx
  have hy' : y ∈ List.takeWhile (fun c => !(c == 46)) s := hy
  have h46 := List.mem_takeWhile_imp hy'
  have hy46 : y ≠ 46 := by simpa using h46
  have hld : lowerN y ≠ 46 := lowerN_ne_dot y hy46
  simpa [hxy] using hld

/-- Helper for C9: a normalized hostname contains no capital S. -/
theorem no_S_normalize_hostname (s : PyStr) : ¬ 83 ∈ normalize_hostname s := by
  intro hx
  obtain ⟨y, _, hxy⟩ := mem_normalize_hostname hx
  exact lowerN_ne_S y hxy.symm

/-- C9: hostname normalization is idempotent: re-normalizing a normalized
hostname is the identity.  The second pass cannot find a dot (the first
kept only the first label and lowering creates no dot), cannot match the
serial regex (its literal needs a capital S, which lowering removed),
strips nothing (the first pass stripped and lowering preserves
whitespace-ness), and lowers nothing further. -/
theorem c9_normalize_hostname_idempotent (s : PyStr) :
    normalize_hostname (normalize_hostname s) = normalize_hostname s := by
  have hsub : pySubSerial (normalize_hostname s) = normalize_hostname s :=
    pySubSerial_id_of_no_S (no_S_normalize_hostname s)
  have hstrip : pyStrip (normalize_hostname s) = normalize_hostname s := by
    show pyStrip (mapLower (pyStrip (pySubSerial (firstLabel s))))
        = normalize_hostname s
    rw [pyStrip_mapLower, pyStrip_idem]
    rfl
  have hlower : mapLower (normalize_hostname s) = normalize_hostname s :=
    mapLower_idem _
  show mapLower (pyStrip (pySubSerial (firstLabel (normalize_hostname s))))
      = normalize_hostname s
  rw [firstLabel_normalize_hostname, hsub, hstrip, hlower]
